import Mathlib

/-!
Verification development for the Pahari_Khet_Sahayak repository.

The file embeds, as Lean definitions, the parts of the source that the
claims under review concern: the three external tool adapters
(`agri_assistant_tools.py`), the offline similarity search
(`offline_search.py`), the chat-log store (`chat_storage.py`), and the
orchestrator `get_ai_response` (`pages/1_Agri_Assistant.py`).

Modelling conventions:
- Python strings are Lean `String`; per-code-point operations
  (`lower`, `strip`, `split`, `title`, substring `in`) are re-implemented
  over `List Char` so that concrete instances reduce in the kernel.
- Python dicts with a known key set are structures; a possibly-absent key
  is an `Option` field (`none` = key absent).
- Calls to external services (HTTP endpoints, the Gemini models, the
  sentence-transformer embedding model, numpy numerics) are modelled by
  outcome parameters: an inductive type enumerating the ways the call can
  resolve (success payload or the exception classes the source
  distinguishes), or an abstract function argument.  Every definition
  below that branches does so exactly as the source does on those
  outcomes.
- Floating-point scores are modelled as rationals `ℚ`.
- Stateful behaviour (the chat database, the in-memory chat list) is
  explicit state passing.
-/

namespace PahariKhet

/-- Python `str.lower()` (per code point). -/
def pyLower (s : String) : String := ⟨s.data.map Char.toLower⟩

/-- Python `str.strip()` with no argument: drop whitespace at both ends. -/
def pyStrip (s : String) : String :=
  ⟨((s.data.dropWhile Char.isWhitespace).reverse.dropWhile Char.isWhitespace).reverse⟩

/-- Auxiliary for `pySplit`: accumulates the current word (reversed). -/
def pySplitAux : List Char → List Char → List String
  | [], cur => if cur.isEmpty then [] else [⟨cur.reverse⟩]
  | c :: cs, cur =>
    if c.isWhitespace then
      if cur.isEmpty then pySplitAux cs [] else ⟨cur.reverse⟩ :: pySplitAux cs []
    else pySplitAux cs (c :: cur)

/-- Python `str.split()` with no argument: split on runs of whitespace,
discarding empty pieces (so `"".split() = []`). -/
def pySplit (s : String) : List String := pySplitAux s.data []

/-- Python `needle in hay` on strings: substring containment. -/
def strContains (needle hay : String) : Bool :=
  (List.range (hay.data.length + 1)).any (fun i => needle.data.isPrefixOf (hay.data.drop i))

/-- Python `hay.startswith (needle)` on strings. -/
def pyStartsWith (hay needle : String) : Bool := needle.data.isPrefixOf hay.data

/-- Auxiliary for `pyTitle`: the flag records whether the previous
character was alphabetic. -/
def pyTitleAux : List Char → Bool → List Char
  | [], _ => []
  | c :: cs, prevAlpha =>
    (if prevAlpha then c.toLower else c.toUpper) :: pyTitleAux cs c.isAlpha

/-- Python `str.title()`: each character following a non-alphabetic one is
upper-cased, the rest are lower-cased. -/
def pyTitle (s : String) : String := ⟨pyTitleAux s.data false⟩

/-- Python `sep.join (parts)`. -/
def joinSep (sep : String) : List String → String
  | [] => ""
  | [s] => s
  | s :: rest => s ++ (sep ++ joinSep sep rest)

/-- Insert `x` into a list already sorted descending by `key`, keeping it
before every element of smaller-or-equal key (so a stable descending sort
results, matching CPython's stable `sort (reverse=True)`). -/
def insertDescBy {α β : Type} [LinearOrder β] (key : α → β) (x : α) : List α → List α
  | [] => [x]
  | y :: ys => if key y ≤ key x then x :: y :: ys else y :: insertDescBy key x ys

/-- Stable insertion sort, descending by `key`. -/
def sortDescBy {α β : Type} [LinearOrder β] (key : α → β) : List α → List α
  | [] => []
  | x :: xs => insertDescBy key x (sortDescBy key xs)

/-- Boolean check that a list of scores is non-increasing. -/
def descendingScores : List ℚ → Bool
  | [] => true
  | [_] => true
  | a :: b :: t => decide (b ≤ a) && descendingScores (b :: t)

/-- One chat interaction as the dicts built by `get_all_chats` in
`chat_storage.py` (keys id, user_query, assistant_response, tool_used,
context_data, timestamp); `similarity_score` models the extra key the
offline search adds to its copies (`none` = key absent). `context_data`
is kept as the raw JSON text column. -/
structure Chat where
  id : Nat
  user_query : String
  assistant_response : String
  tool_used : Option String
  context_data : Option String
  timestamp : String
  similarity_score : Option ℚ := none
deriving DecidableEq, Inhabited

/-- The chat_history SQLite table of `chat_storage.py`: the stored rows
plus the AUTOINCREMENT counter for the primary key. -/
structure ChatDB where
  rows : List Chat
  nextId : Nat
deriving DecidableEq, Inhabited

/-- `chat_storage.save_chat`: INSERT one row; the id comes from the
AUTOINCREMENT counter and `now` is the `datetime.now().isoformat()`
timestamp string passed in by the clock. -/
def save_chat (db : ChatDB) (user_query assistant_response : String)
    (tool_used : Option String) (context_json : Option String) (now : String) : ChatDB :=
  { rows := db.rows ++
      [{ id := db.nextId, user_query := user_query,
         assistant_response := assistant_response, tool_used := tool_used,
         context_data := context_json, timestamp := now }],
    nextId := db.nextId + 1 }

/-- `chat_storage.get_all_chats`: SELECT ... ORDER BY timestamp DESC,
with `LIMIT n` appended only when the Python `limit` argument is truthy
(so `None` and `0` both mean no limit).  SQLite TEXT ordering on the
ISO-format timestamps is byte-wise, i.e. lexicographic on the code
points (the key below); the tie order of equal timestamps is unspecified
in SQL and fixed here as stable. -/
def get_all_chats (db : ChatDB) (limit : Option Nat) : List Chat :=
  let sorted := sortDescBy (fun r => r.timestamp.data) db.rows
  match limit with
  | none => sorted
  | some n => if n = 0 then sorted else sorted.take n

/-! ## External tool adapters (`agri_assistant_tools.py`) -/

/-- One item of the Google Custom Search result list; every field is read
with `item.get (..., default)`, so all are possibly absent. -/
structure SearchItem where
  link : Option String
  title : Option String
  snippet : Option String
deriving DecidableEq

/-- How the body of `google_search` up to the result loop can resolve:
either some exception was raised (credential lookup, service build, the
HTTP call — all caught by the one `except Exception` clause), carrying the
exception text, or the call succeeded with the `res.get ('items', [])`
list. -/
inductive SearchUpstream where
  | error (e : String)
  | ok (items : List SearchItem)
deriving DecidableEq

/-- The per-item block built inside the loop of `google_search`. -/
def searchSnippet (item : SearchItem) : String :=
  "Source: " ++
    (item.link.getD "N/A" ++ "\nTitle: " ++ item.title.getD "N/A" ++
     "\nContent: " ++ (item.snippet.getD "").replace "..." "")

/-- `google_search (query)` of `agri_assistant_tools.py`, with the
external call abstracted into its outcome. -/
def google_search (_query : String) (up : SearchUpstream) : String :=
  match up with
  | .error e => "There was an error during the live search: " ++ e
  | .ok items =>
    let snippets := items.map searchSnippet
    if snippets.isEmpty then "No relevant information found in trusted online sources."
    else joinSep "\n---\n" snippets

/-- One AGMARKNET record; each field is read with
`record.get (..., 'N/A')`, so all are possibly absent. -/
structure MarketRecord where
  district : Option String
  market : Option String
  modal_price : Option String
deriving DecidableEq

/-- How the body of `get_market_price` up to the record loop can resolve:
a `requests.exceptions.RequestException` (its own handler), any other
exception (credential lookup, JSON decoding — the generic handler), or a
decoded payload.  The payload is `none` when `data` is falsy or has no
truthy `records` entry, otherwise the record list (`some []` = key
present with an empty list, which is also falsy in the source's test). -/
inductive MarketUpstream where
  | requestError
  | otherError (e : String)
  | ok (records : Option (List MarketRecord))
deriving DecidableEq

/-- The record loop of `get_market_price` (lines 53-61): walk the
records, stop once 5 have been accepted, keep a record when its
`modal_price` (default `"N/A"`) is truthy (non-empty) and not the literal
string `"0"`; `k` is the `processed_records` counter. -/
def collectPriceRecords : List MarketRecord → Nat → List MarketRecord
  | [], _ => []
  | r :: rs, k =>
    if 5 ≤ k then []
    else
      let mp := r.modal_price.getD "N/A"
      if mp ≠ "" ∧ mp ≠ "0" then r :: collectPriceRecords rs (k + 1)
      else collectPriceRecords rs k

/-- The line appended for an accepted record. -/
def priceLine (r : MarketRecord) : String :=
  "  - District: " ++
    (r.district.getD "N/A" ++ ", Market: " ++ r.market.getD "N/A" ++
     ", Price: ₹" ++ r.modal_price.getD "N/A" ++ "/Quintal\n")

/-- `get_market_price (crop_name, state_name)` of
`agri_assistant_tools.py`, with the external call abstracted into its
outcome. -/
def get_market_price (crop_name state_name : String) (up : MarketUpstream) : String :=
  match up with
  | .requestError => "Could not fetch market prices due to a network issue."
  | .otherError e => "An error occurred while fetching market prices: " ++ e
  | .ok records =>
    match records with
    | some (r :: rs) =>
      let included := collectPriceRecords (r :: rs) 0
      if included.isEmpty then
        "No recent market price data (with valid prices) found for " ++
          (pyTitle crop_name ++ " in " ++ pyTitle state_name ++ ".")
      else
        "Recent AGMARKNET Market Prices for " ++
          (pyTitle crop_name ++ " in " ++ pyTitle state_name ++ ":\n" ++
           joinSep "" (included.map priceLine))
    | _ =>
      "No market price data found for " ++
        (pyTitle crop_name ++ " in " ++ pyTitle state_name ++ ".")

/-- The fields of the OpenWeatherMap payload that `get_weather` reads.
`cod` is the status field read with `data.get ("cod")`; the numeric
fields are modelled by their rendered string (the f-string prints them
verbatim). -/
structure WeatherData where
  cod : Option Int
  name : String
  country : String
  description : String
  temp : String
  humidity : String
  wind_speed : String
deriving DecidableEq

/-- How the body of `get_weather` can resolve: an
`requests.exceptions.HTTPError` from `raise_for_status` (carrying the
response status code and the exception text), a
`requests.exceptions.Timeout` (NOT an HTTPError, so it reaches the
generic `except Exception` clause), any other exception, or a decoded
payload. -/
inductive WeatherUpstream where
  | httpError (status : Nat) (e : String)
  | timeoutError (e : String)
  | otherError (e : String)
  | ok (data : WeatherData)
deriving DecidableEq

/-- `get_weather (location)` of `agri_assistant_tools.py`, with the
external call abstracted into its outcome. -/
def get_weather (location : String) (up : WeatherUpstream) : String :=
  match up with
  | .ok data =>
    if data.cod ≠ some 200 then "Could not find weather data for " ++ (location ++ ".")
    else
      "Current weather in " ++
        (data.name ++ ", " ++ data.country ++ ":\n" ++
         "  - Conditions: " ++ pyTitle data.description ++ "\n" ++
         "  - Temperature: " ++ data.temp ++ "°C\n" ++
         "  - Humidity: " ++ data.humidity ++ "%\n" ++
         "  - Wind Speed: " ++ data.wind_speed ++ " m/s")
  | .httpError status e =>
    if status = 404 then "Could not find weather data for the location: " ++ (location ++ ".")
    else if status = 401 then "Invalid OpenWeatherMap API key. Please check your .env file."
    else "An HTTP error occurred: " ++ e
  | .timeoutError e => "An error occurred while fetching weather: " ++ e
  | .otherError e => "An error occurred while fetching weather: " ++ e

/-! ## Offline similarity search (`offline_search.py`)

The sentence-transformer model, the numpy norm/normalisation and the dot
product (lines 50-63) all live in external libraries; their composite —
the cosine-similarity score the source assigns to one stored query
against the user query — is abstracted as the function parameter
`simFn : String → String → ℚ`.  Everything from line 43 (the empty-log
check) and line 66 (argsort, truncation, threshold filter, copying)
onwards is embedded directly. -/

/-- `offline_search.find_similar_chats (query, top_k,
similarity_threshold)` applied to the chat list read from storage.
`top_indices` is `np.argsort (similarities)[::-1][:top_k]`; the result
loop appends, in that order, a copy of each chat whose score passes the
threshold, with the `similarity_score` key set. -/
def find_similar_chats (simFn : String → String → ℚ) (query : String)
    (all_chats : List Chat) (top_k : Nat) (similarity_threshold : ℚ) : List Chat :=
  if all_chats.isEmpty then []
  else
    let similarities := all_chats.map (fun c => simFn query c.user_query)
    let top_indices :=
      (sortDescBy (fun i => similarities.getD i 0) (List.range all_chats.length)).take top_k
    (top_indices.filter (fun idx => decide (similarity_threshold ≤ similarities.getD idx 0))).map
      (fun idx =>
        { all_chats.getD idx default with similarity_score := some (similarities.getD idx 0) })

/-- The `matches` count of `fallback_text_search`:
`sum (1 for term in query_terms if term in chat_query_lower)` — Python
`in` is substring containment. -/
def matchCount (query_terms : List String) (chat_query_lower : String) : Nat :=
  (query_terms.filter (fun term => strContains term chat_query_lower)).length

/-- `offline_search.fallback_text_search (query, top_k)` applied to the
chat list read from storage: chats with at least one matching term get a
copy carrying `matches / len (query_terms)` as score; the scored list is
then stably sorted descending by score and truncated to `top_k`. -/
def fallback_text_search (query : String) (all_chats : List Chat) (top_k : Nat) : List Chat :=
  let query_terms := pySplit (pyLower query)
  let scored_chats :=
    (all_chats.filter
        (fun chat => decide (0 < matchCount query_terms (pyLower chat.user_query)))).map
      (fun chat =>
        { chat with
            similarity_score :=
              some ((matchCount query_terms (pyLower chat.user_query) : ℚ) / query_terms.length) })
  (sortDescBy (fun c => c.similarity_score.getD 0) scored_chats).take top_k

/-- Version of `fallback_text_search` written from the claim's words
instead of the source: it scores EVERY stored chat as the fraction of
query tokens present in the candidate's stored query (also when that
fraction is zero), ranks descending with no threshold filter, and
truncates to `top_k`. -/
def fallback_text_search_claim (query : String) (all_chats : List Chat) (top_k : Nat) : List Chat :=
  let query_terms := pySplit (pyLower query)
  let scored_chats := all_chats.map
    (fun chat =>
      { chat with
          similarity_score :=
            some ((matchCount query_terms (pyLower chat.user_query) : ℚ) / query_terms.length) })
  (sortDescBy (fun c => c.similarity_score.getD 0) scored_chats).take top_k

/-- State-passing rendering of the result loop of `find_similar_chats`
(lines 68-76).  The in-memory chat list read from storage is threaded as
explicit state; the body performs `chat = all_chats[idx].copy ()` and sets
`similarity_score` on the copy, so the state component is written through
unchanged.  Had the source set the key on `all_chats[idx]` itself, the
state update would have been `st.set idx ...` instead of `st`. -/
def find_similar_chats_st (simFn : String → String → ℚ) (query : String)
    (all_chats : List Chat) (top_k : Nat) (similarity_threshold : ℚ) :
    List Chat × List Chat :=
  if all_chats.isEmpty then (all_chats, [])
  else
    let similarities := all_chats.map (fun c => simFn query c.user_query)
    let top_indices :=
      (sortDescBy (fun i => similarities.getD i 0) (List.range all_chats.length)).take top_k
    top_indices.foldl
      (fun acc idx =>
        let similarity_score := similarities.getD idx 0
        if decide (similarity_threshold ≤ similarity_score) then
          let chat := { acc.1.getD idx default with similarity_score := some similarity_score }
          (acc.1, acc.2 ++ [chat])
        else acc)
      (all_chats, [])

/-- State-passing rendering of the scoring loop of `fallback_text_search`
(lines 99-107), with the chat list as explicit state exactly as in
`find_similar_chats_st`. -/
def fallback_text_search_st (query : String) (all_chats : List Chat) (top_k : Nat) :
    List Chat × List Chat :=
  let query_terms := pySplit (pyLower query)
  let folded := all_chats.foldl
    (fun acc chat =>
      let numMatches := matchCount query_terms (pyLower chat.user_query)
      if decide (0 < numMatches) then
        let chat_copy :=
          { chat with similarity_score := some ((numMatches : ℚ) / query_terms.length) }
        (acc.1, acc.2 ++ [chat_copy])
      else acc)
    (all_chats, [])
  (folded.1, (sortDescBy (fun c => c.similarity_score.getD 0) folded.2).take top_k)

/-- The fixed message of `format_offline_response` for an empty match
list; `get_ai_response` returns the same text when the offline search
finds nothing. -/
def offlineNoMatchMsg : String :=
  "I\x27m currently offline and couldn\x27t find any similar questions in your chat history. " ++
    "Please check your internet connection to get real-time answers."

/-- `offline_search.format_offline_response (similar_chats, user_query)`:
quotes the best match, wording scaled by similarity banding, and mentions
further matches when present. -/
def format_offline_response (similar_chats : List Chat) (_user_query : String) : String :=
  match similar_chats with
  | [] => offlineNoMatchMsg
  | best_match :: rest =>
    let similarity := best_match.similarity_score.getD 0
    let response := "**⚠️ Offline Mode**\n\n"
    let response := response ++
      (if (7 : ℚ) / 10 ≤ similarity then
        "I found a very similar question in your chat history. Here\x27s what I answered before:\n\n"
      else if (1 : ℚ) / 2 ≤ similarity then
        "I found a related question in your chat history. Here\x27s a similar answer:\n\n"
      else
        "I found a somewhat related question in your chat history. This might help:\n\n")
    let response := response ++
      ("**Previous Question:** " ++ best_match.user_query ++ "\n\n") ++
      ("**Previous Answer:**\n" ++ best_match.assistant_response ++ "\n\n")
    let response := response ++ "---\n" ++
      "*Note: This is from your chat history. For the most current information, " ++
      "please check your internet connection.*"
    if 0 < rest.length then
      response ++ "\n\n*I also found " ++ toString rest.length ++
        " other related conversation(s) in your history.*"
    else response

/-! ## Orchestrator (`pages/1_Agri_Assistant.py`)

`get_ai_response` composes validation, routing, tool invocation,
synthesis and the offline fallback.  Besides its returned triple
`(response, tool_used, context_data)` the embedding records a trace of
the external calls the function issues, so that claims about which
components run on which paths are statements about the trace.  The
language-model calls (validation classifier, router, answer model), the
three tool adapters and the offline search are abstracted into an
environment of outcomes fixed for the one query being processed;
`is_online` is the value the connectivity probe reports during the
request. -/

/-- One external call issued by `get_ai_response`. -/
inductive Event where
  | validatorModelCall
  | routerModelCall
  | weatherToolCall (location : String)
  | marketToolCall (crop state : String)
  | searchToolCall (q : String)
  | answerModelCall
  | offlineSearchCall (top_k : Nat)
deriving DecidableEq

/-- The parsed router JSON (`tool_call`): a dict whose keys may each be
absent; `none` models a missing key. -/
structure ToolCall where
  tool : Option String := none
  location : Option String := none
  crop : Option String := none
  state : Option String := none
  query : Option String := none
  reply : Option String := none
deriving DecidableEq

/-- How Step 1 (router model call plus `json.loads`) can resolve:
`json.JSONDecodeError` (its own handler), any other exception with its
text (the general handler, which looks for "API key" in it), or a parsed
`tool_call`. -/
inductive RouterOutcome where
  | jsonDecodeError
  | otherError (e : String)
  | ok (tool_call : ToolCall)
deriving DecidableEq

/-- The `context_data` dict built in Step 2. -/
structure CtxData where
  tool : Option String := none
  location : Option String := none
  crop : Option String := none
  state : Option String := none
  query : Option String := none
deriving DecidableEq

/-- Outcomes of all external calls for the one query being processed. -/
structure Env where
  /-- what `connectivity_check.is_online ()` reports during this request -/
  is_online : Bool
  /-- result of the online validation path of `validate_agriculture_query`
  (the LLM classification, falling back to the keyword check on parse or
  call failure; both delegate to external outcomes, so the composite
  `(is_valid, message)` pair is the abstraction boundary) -/
  onlineValidation : Bool × String
  /-- outcome of Step 1, the router model call plus JSON parse -/
  routerResult : RouterOutcome
  /-- `tools.get_weather` as a function of the location -/
  weatherTool : String → String
  /-- `tools.get_market_price` as a function of crop and state -/
  marketTool : String → String → String
  /-- `tools.google_search` as a function of the search query -/
  searchTool : String → String
  /-- Step 3: the answer model on (query, context); `Except.error`
  models a raised exception -/
  answerResult : String → String → Except String String
  /-- `offline_search.find_similar_chats` on (query, top_k) -/
  offlineResults : String → Nat → List Chat

/-- The greeting/closing phrases checked before any model call. -/
def greetings : List String :=
  ["hello", "hi", "hey", "good morning", "good afternoon", "good evening",
   "thanks", "thank you", "bye", "goodbye", "see you"]

/-- `validate_agriculture_query (query)` with its trace: greetings pass
without any call; offline passes without any call; otherwise the
validation model is consulted (keyword fallback included in the
abstracted outcome). -/
def validate_agriculture_query (env : Env) (query : String) :
    (Bool × String) × List Event :=
  let query_lower := pyStrip (pyLower query)
  if greetings.any (fun g => pyStartsWith query_lower g || (query_lower == g)) then
    ((true, ""), [])
  else if !env.is_online then ((true, ""), [])
  else (env.onlineValidation, [Event.validatorModelCall])

/-- Step 3 of `get_ai_response` (lines 439-449): synthesize from the
tool's context; on failure fall back to the offline search with
`top_k = 1`. -/
def answerStep (env : Env) (query context : String) (tool_name : String)
    (context_data : CtxData) (ev : List Event) :
    (String × String × Option CtxData) × List Event :=
  let ev := ev ++ [Event.answerModelCall]
  match env.answerResult query context with
  | .ok text => ((text, tool_name, some context_data), ev)
  | .error _ =>
    let similar_chats := env.offlineResults query 1
    let ev := ev ++ [Event.offlineSearchCall 1]
    if !similar_chats.isEmpty then
      ((format_offline_response similar_chats query, "offline_fallback", none), ev)
    else
      (("I found some information, but had trouble formulating a final answer.",
        "error", none), ev)

/-- `get_ai_response (query, use_offline)` of `pages/1_Agri_Assistant.py`
(lines 335-449), returning the `(response, tool_used, context_data)`
triple together with the trace of external calls issued. -/
def get_ai_response (env : Env) (query : String) (use_offline : Bool) :
    (String × String × Option CtxData) × List Event :=
  let validated := validate_agriculture_query env query
  let ev0 := validated.2
  if !validated.1.1 then ((validated.1.2, "validation", none), ev0)
  else if use_offline || !env.is_online then
    let similar_chats := env.offlineResults query 3
    let ev := ev0 ++ [Event.offlineSearchCall 3]
    if !similar_chats.isEmpty then
      ((format_offline_response similar_chats query, "offline_search", none), ev)
    else ((offlineNoMatchMsg, "offline_search", none), ev)
  else
    let evR := ev0 ++ [Event.routerModelCall]
    match env.routerResult with
    | .jsonDecodeError =>
      let similar_chats := env.offlineResults query 1
      let ev := evR ++ [Event.offlineSearchCall 1]
      if !similar_chats.isEmpty then
        ((format_offline_response similar_chats query, "offline_fallback", none), ev)
      else
        (("I\x27m sorry, I received an invalid response from my internal logic. " ++
          "Please try rephrasing.", "error", none), ev)
    | .otherError e =>
      let similar_chats := env.offlineResults query 1
      let ev := evR ++ [Event.offlineSearchCall 1]
      if !similar_chats.isEmpty then
        ((format_offline_response similar_chats query, "offline_fallback", none), ev)
      else if strContains "API key" e then
        (("I\x27m sorry, I\x27m having an issue with my internal configuration (API Key). " ++
          "The server logs have more details.", "error", none), ev)
      else
        (("I\x27m sorry, I had an internal error trying to understand your request. " ++
          "Please rephrase and try again.", "error", none), ev)
    | .ok tool_call =>
      let tool_name := tool_call.tool
      if tool_name = some "weather" then
        match tool_call.location with
        | none =>
          (("You asked about weather, but didn\x27t specify a location. " ++
            "Please ask again (e.g., \x27weather in Delhi\x27).", "error", none), evR)
        | some location =>
          let context := env.weatherTool location
          let ev := evR ++ [Event.weatherToolCall location]
          answerStep env query context "weather"
            { tool := tool_name, location := some location } ev
      else if tool_name = some "market_price" then
        match tool_call.crop, tool_call.state with
        | some crop, some state =>
          let context := env.marketTool crop state
          let ev := evR ++ [Event.marketToolCall crop state]
          answerStep env query context "market_price"
            { tool := tool_name, crop := some crop, state := some state } ev
        | _, _ =>
          (("You asked for a price, but I need both a crop and a state " ++
            "(e.g., \x27price of rice in Haryana\x27).", "error", none), evR)
      else if tool_name = some "general_search" then
        match tool_call.query with
        | none =>
          (("I\x27m not sure how to search for that. Could you be more specific?",
            "error", none), evR)
        | some search_query =>
          let context := env.searchTool search_query
          let ev := evR ++ [Event.searchToolCall search_query]
          answerStep env query context "general_search"
            { tool := tool_name, query := some search_query } ev
      else if tool_name = some "none" then
        ((tool_call.reply.getD "Hello! How can I help?", "none", none), evR)
      else
        (("I\x27m sorry, I don\x27t have a tool to answer that question.", "error", none), evR)

/-- Events that are neither a router call, a tool-adapter call nor an
answer-model call: the validator and the offline similarity search. -/
def isOfflineSafeEvent : Event → Bool
  | .validatorModelCall => true
  | .offlineSearchCall _ => true
  | _ => false

/-- Tool-adapter call events. -/
def isAdapterEvent : Event → Bool
  | .weatherToolCall _ => true
  | .marketToolCall _ _ => true
  | .searchToolCall _ => true
  | _ => false

/-- Offline-search call events. -/
def isOfflineSearchEvent : Event → Bool
  | .offlineSearchCall _ => true
  | _ => false

/-! ## Concrete fixtures used by witnesses and counterexamples -/

/-- A stored chat whose query shares no token with the query "wheat". -/
def chatRice : Chat :=
  { id := 1, user_query := "rice information", assistant_response := "Rice needs water.",
    tool_used := none, context_data := none, timestamp := "2024-01-01T00:00:00" }

/-- A one-row database for the round-trip witness. -/
def dbOne : ChatDB := { rows := [chatRice], nextId := 2 }

/-- An AGMARKNET record carrying the (non-positive) price string "-5". -/
def recNegPrice : MarketRecord :=
  { district := some "Solan", market := some "Solan Market", modal_price := some "-5" }

/-- An AGMARKNET record carrying the price string "0". -/
def recZeroPrice : MarketRecord :=
  { district := some "Solan", market := some "Solan Market", modal_price := some "0" }

/-- Value of a digit string. -/
def digitsVal (ds : List Char) : Nat :=
  ds.foldl (fun n c => 10 * n + (c.toNat - 48)) 0

/-- Numeric reading of an integer price string (optional leading minus
sign followed by digits).  Used only to state the claim's "strictly
positive price" condition about concrete price strings. -/
def priceNumeral (s : String) : Option Int :=
  match s.data with
  | [] => none
  | '-' :: ds =>
    if ds.isEmpty then none
    else if ds.all Char.isDigit then some (-(Int.ofNat (digitsVal ds))) else none
  | ds =>
    if ds.all Char.isDigit then some (Int.ofNat (digitsVal ds)) else none

/-- Environment for a request processed with the connectivity probe
reporting offline; every external outcome is inert. -/
def envOffline : Env :=
  { is_online := false, onlineValidation := (true, ""),
    routerResult := RouterOutcome.jsonDecodeError,
    weatherTool := fun _ => "", marketTool := fun _ _ => "",
    searchTool := fun _ => "", answerResult := fun _ _ => Except.ok "",
    offlineResults := fun _ _ => [] }

/-- Environment for an online request whose router decision is
`market_price` with the `crop` key absent. -/
def envMarketNoCrop : Env :=
  { is_online := true, onlineValidation := (true, ""),
    routerResult := RouterOutcome.ok { tool := some "market_price", state := some "Punjab" },
    weatherTool := fun _ => "", marketTool := fun _ _ => "market context",
    searchTool := fun _ => "", answerResult := fun _ _ => Except.ok "final answer",
    offlineResults := fun _ _ => [] }

/-- Environment for an online request whose router decision is
`market_price` with `crop` present but equal to the empty string. -/
def envMarketEmptyCrop : Env :=
  { is_online := true, onlineValidation := (true, ""),
    routerResult := RouterOutcome.ok
      { tool := some "market_price", crop := some "", state := some "Punjab" },
    weatherTool := fun _ => "", marketTool := fun _ _ => "market context",
    searchTool := fun _ => "", answerResult := fun _ _ => Except.ok "final answer",
    offlineResults := fun _ _ => [] }

/-! ## Lemmas about the stable descending sort -/

theorem mem_insertDescBy {α β : Type} [LinearOrder β] (key : α → β) (x a : α) :
    ∀ l : List α, a ∈ insertDescBy key x l ↔ a = x ∨ a ∈ l := by
  intro l
  induction l with
  | nil => simp [insertDescBy]
  | cons y ys ih =>
    by_cases h : key y ≤ key x
    · simp [insertDescBy, h]
    · simp only [insertDescBy, if_neg h, List.mem_cons, ih]
      tauto

theorem length_insertDescBy {α β : Type} [LinearOrder β] (key : α → β) (x : α) :
    ∀ l : List α, (insertDescBy key x l).length = l.length + 1 := by
  intro l
  induction l with
  | nil => rfl
  | cons y ys ih =>
    by_cases h : key y ≤ key x
    · simp [insertDescBy, h]
    · simp [insertDescBy, h, ih]

theorem mem_sortDescBy {α β : Type} [LinearOrder β] (key : α → β) (a : α) :
    ∀ l : List α, a ∈ sortDescBy key l ↔ a ∈ l := by
  intro l
  induction l with
  | nil => simp [sortDescBy]
  | cons x xs ih => simp [sortDescBy, mem_insertDescBy, ih]

theorem length_sortDescBy {α β : Type} [LinearOrder β] (key : α → β) :
    ∀ l : List α, (sortDescBy key l).length = l.length := by
  intro l
  induction l with
  | nil => rfl
  | cons x xs ih => simp [sortDescBy, length_insertDescBy, ih]

theorem pairwise_insertDescBy {α β : Type} [LinearOrder β] (key : α → β) (x : α) :
    ∀ l : List α, l.Pairwise (fun a b => key b ≤ key a) →
      (insertDescBy key x l).Pairwise (fun a b => key b ≤ key a) := by
  intro l
  induction l with
  | nil => intro _; simp [insertDescBy]
  | cons y ys ih =>
    intro h
    rw [List.pairwise_cons] at h
    by_cases hk : key y ≤ key x
    · rw [insertDescBy, if_pos hk, List.pairwise_cons]
      refine ⟨?_, List.pairwise_cons.2 h⟩
      intro b hb
      rcases List.mem_cons.1 hb with rfl | hb
      · exact hk
      · exact le_trans (h.1 b hb) hk
    · rw [insertDescBy, if_neg hk, List.pairwise_cons]
      refine ⟨?_, ih h.2⟩
      intro b hb
      rcases (mem_insertDescBy key x b ys).1 hb with rfl | hb
      · exact le_of_lt (lt_of_not_le hk)
      · exact h.1 b hb

theorem pairwise_sortDescBy {α β : Type} [LinearOrder β] (key : α → β) :
    ∀ l : List α, (sortDescBy key l).Pairwise (fun a b => key b ≤ key a) := by
  intro l
  induction l with
  | nil => simp [sortDescBy]
  | cons x xs ih => exact pairwise_insertDescBy key x _ ih

theorem descendingScores_of_pairwise :
    ∀ {l : List ℚ}, l.Pairwise (fun a b => b ≤ a) → descendingScores l = true := by
  intro l h
  induction l with
  | nil => rfl
  | cons a t ih =>
    cases t with
    | nil => rfl
    | cons b t2 =>
      rw [List.pairwise_cons] at h
      show (decide (b ≤ a) && descendingScores (b :: t2)) = true
      rw [ih h.2, decide_eq_true (h.1 b (List.mem_cons_self b t2))]
      rfl

/-- Claim C6: for every query, top_k and threshold, the result list of
`find_similar_chats` is sorted in descending order of similarity score,
contains only entries with score at least the threshold, and has length
at most top_k; and on an empty chat log the result is the empty list.
(The theorem quantifies over every similarity function the external
embedding pipeline could realise.) -/
theorem find_similar_chats_invariants (simFn : String → String → ℚ) (query : String)
    (all_chats : List Chat) (top_k : Nat) (similarity_threshold : ℚ) :
    descendingScores
        ((find_similar_chats simFn query all_chats top_k similarity_threshold).map
          (fun c => c.similarity_score.getD 0)) = true ∧
    (find_similar_chats simFn query all_chats top_k similarity_threshold).all
        (fun c => decide (similarity_threshold ≤ c.similarity_score.getD 0)) = true ∧
    (find_similar_chats simFn query all_chats top_k similarity_threshold).length ≤ top_k ∧
    find_similar_chats simFn query [] top_k similarity_threshold = [] := by
  refine ⟨?_, ?_, ?_, rfl⟩
  all_goals by_cases he : all_chats.isEmpty
  · simp [find_similar_chats, he, descendingScores]
  · rw [show find_similar_chats simFn query all_chats top_k similarity_threshold =
        (((sortDescBy
              (fun i => (all_chats.map (fun c => simFn query c.user_query)).getD i 0)
              (List.range all_chats.length)).take top_k).filter
            (fun idx => decide (similarity_threshold ≤
              (all_chats.map (fun c => simFn query c.user_query)).getD idx 0))).map
          (fun idx =>
            { all_chats.getD idx default with
                similarity_score :=
                  some ((all_chats.map (fun c => simFn query c.user_query)).getD idx 0) })
        from by rw [find_similar_chats, if_neg (by simp [he])]]
    rw [List.map_map]
    apply descendingScores_of_pairwise
    apply List.pairwise_map.2
    apply List.Pairwise.filter
    exact List.Pairwise.sublist (List.take_sublist _ _) (pairwise_sortDescBy _ _)
  · simp [find_similar_chats, he]
  · rw [find_similar_chats, if_neg (by simp [he])]
    rw [List.all_eq_true]
    intro c hc
    rcases List.mem_map.1 hc with ⟨idx, hidx, rfl⟩
    rcases List.mem_filter.1 hidx with ⟨_, hp⟩
    simpa using hp
  · simp [find_similar_chats, he]
  · rw [find_similar_chats, if_neg (by simp [he])]
    calc ((((sortDescBy _ (List.range all_chats.length)).take top_k).filter _).map _).length
        = (((sortDescBy _ (List.range all_chats.length)).take top_k).filter _).length :=
          List.length_map _ _
      _ ≤ ((sortDescBy _ (List.range all_chats.length)).take top_k).length :=
          List.length_filter_le _ _
      _ ≤ top_k := List.length_take_le _ _

/-- Claim C8 (amended): the fallback text search scores each stored chat
with at least one matching token as the fraction of the query's
lower-cased whitespace-split tokens contained in the candidate's stored
query, EXCLUDES chats with zero matching tokens, applies no further
threshold, ranks descending by score, and truncates to top_k. -/
theorem fallback_text_search_invariants (query : String) (all_chats : List Chat) (top_k : Nat) :
    descendingScores
        ((fallback_text_search query all_chats top_k).map
          (fun c => c.similarity_score.getD 0)) = true ∧
    (fallback_text_search query all_chats top_k).length ≤ top_k ∧
    (fallback_text_search query all_chats top_k).all
        (fun c =>
          decide (0 < matchCount (pySplit (pyLower query)) (pyLower c.user_query)) &&
          (c.similarity_score ==
            some ((matchCount (pySplit (pyLower query)) (pyLower c.user_query) : ℚ) /
              (pySplit (pyLower query)).length))) = true := by
  refine ⟨?_, ?_, ?_⟩
  · apply descendingScores_of_pairwise
    apply List.pairwise_map.2
    simp only [fallback_text_search]
    exact List.Pairwise.sublist (List.take_sublist _ _) (pairwise_sortDescBy _ _)
  · simp only [fallback_text_search]
    exact List.length_take_le _ _
  · rw [List.all_eq_true]
    intro c hc
    simp only [fallback_text_search] at hc
    have h1 := (mem_sortDescBy _ c _).1 ((List.take_sublist _ _).subset hc)
    rcases List.mem_map.1 h1 with ⟨chat, hchat, rfl⟩
    rcases List.mem_filter.1 hchat with ⟨_, hp⟩
    simpa using hp

/-- Counterexample to claim C8 as stated: with the stored chat "rice
information" and the query "wheat" (zero matching tokens), the source
returns the empty list, while the claim's reading — score every stored
chat, no threshold filter, truncate to top_k — keeps the zero-score
chat. -/
theorem fallback_text_search_ranks_all_false :
    fallback_text_search "wheat" [chatRice] 2 = [] ∧
    (fallback_text_search_claim "wheat" [chatRice] 2).map (fun c => c.user_query) =
      ["rice information"] := by
  constructor
  · decide
  · decide

/-- Claim C10: a query with no whitespace-separated tokens makes
`fallback_text_search` return the empty list, and no stored chat has a
positive match count, so the score division (guarded by `matches > 0`)
is never reached. -/
theorem fallback_text_search_empty_query (query : String) (all_chats : List Chat) (top_k : Nat)
    (h : pySplit (pyLower query) = []) :
    fallback_text_search query all_chats top_k = [] ∧
    all_chats.all
      (fun c => matchCount (pySplit (pyLower query)) (pyLower c.user_query) == 0) = true := by
  constructor
  · simp [fallback_text_search, h, matchCount, sortDescBy]
  · simp [matchCount, h]

/-- Witness for C10 at the empty query. -/
theorem fallback_text_search_empty_query_witness :
    pySplit (pyLower "") = [] ∧ fallback_text_search "" [chatRice] 3 = [] :=
  ⟨by decide, (fallback_text_search_empty_query "" [chatRice] 3 (by decide)).1⟩

/-- A left fold whose step never changes the first component of the
accumulator preserves it. -/
theorem foldl_fst_const {γ : Type} (f : List Chat × List Chat → γ → List Chat × List Chat)
    (hf : ∀ a c, (f a c).1 = a.1) :
    ∀ (l : List γ) (a : List Chat × List Chat), (l.foldl f a).1 = a.1 := by
  intro l
  induction l with
  | nil => intro a; rfl
  | cons c cs ih => intro a; rw [List.foldl_cons, ih, hf]

/-- Claim C9: both search functions are pure with respect to the stored
chat list — their state-passing renderings, in which each selected record
is copied before the `similarity_score` key is set, return the store
component unchanged for every query. -/
theorem offline_search_is_pure (simFn : String → String → ℚ) (query : String)
    (store : List Chat) (top_k : Nat) (threshold : ℚ) :
    (find_similar_chats_st simFn query store top_k threshold).1 = store ∧
    (fallback_text_search_st query store top_k).1 = store := by
  constructor
  · by_cases he : store.isEmpty
    · simp [find_similar_chats_st, he]
    · simp only [find_similar_chats_st, if_neg (by simp [he] : ¬ store.isEmpty = true)]
      exact foldl_fst_const _ (fun a c => by split <;> rfl) _ _
  · simp only [fallback_text_search_st]
    exact foldl_fst_const _ (fun a c => by split <;> rfl) _ _

/-- Claim C7: appending a chat via `save_chat` and reading back via
`get_all_chats` with limit 1 yields a record whose query, response and
tool fields equal those appended.  The hypothesis states that the clock
value used for the append is strictly later than every stored timestamp,
which is what `datetime.now().isoformat()` provides on a monotone clock
(for equal or earlier timestamps the SQL ordering is unspecified). -/
theorem save_chat_roundtrip (db : ChatDB) (q a : String) (tool ctx : Option String)
    (now : String) (h : ∀ r ∈ db.rows, r.timestamp.data < now.data) :
    ∃ r0, get_all_chats (save_chat db q a tool ctx now) (some 1) = [r0] ∧
      r0.user_query = q ∧ r0.assistant_response = a ∧ r0.tool_used = tool := by
  classical
  set newRow : Chat :=
    { id := db.nextId, user_query := q, assistant_response := a, tool_used := tool,
      context_data := ctx, timestamp := now } with hnew
  have hlist : (save_chat db q a tool ctx now).rows = db.rows ++ [newRow] := rfl
  set key : Chat → List Char := fun r => r.timestamp.data with hkey
  have hlen : (sortDescBy key (db.rows ++ [newRow])).length = db.rows.length + 1 := by
    rw [length_sortDescBy]
    simp
  cases hs : sortDescBy key (db.rows ++ [newRow]) with
  | nil => rw [hs] at hlen; simp at hlen
  | cons r0 rest =>
    have hr0mem : r0 ∈ db.rows ++ [newRow] :=
      (mem_sortDescBy key r0 _).1 (hs ▸ List.mem_cons_self r0 rest)
    have hpair := pairwise_sortDescBy key (db.rows ++ [newRow])
    rw [hs, List.pairwise_cons] at hpair
    have hnewmem : newRow ∈ r0 :: rest := by
      rw [← hs]
      exact (mem_sortDescBy key newRow _).2 (List.mem_append_right _ (List.mem_singleton.2 rfl))
    have hr0 : r0 = newRow := by
      rcases (List.mem_append.1 hr0mem) with hold | hsingle
      · exfalso
        rcases List.mem_cons.1 hnewmem with heq | htail
        · exact absurd (h r0 hold) (by rw [← heq]; exact lt_irrefl _)
        · exact absurd (h r0 hold)
            (not_lt.2 (hpair.1 newRow htail))
      · exact (List.mem_singleton.1 hsingle).symm ▸ rfl
    refine ⟨r0, ?_, ?_, ?_, ?_⟩
    · show (let sorted := sortDescBy (fun r => r.timestamp.data) (save_chat db q a tool ctx now).rows
        if (1 : Nat) = 0 then sorted else sorted.take 1) = [r0]
      rw [hlist]
      simp only [hkey] at hs
      rw [if_neg (by decide : ¬ (1 : Nat) = 0), hs]
      rfl
    · rw [hr0]
    · rw [hr0]
    · rw [hr0]

/-- Witness for C7: a database with one older record, an append with a
later timestamp, and the read-back. -/
theorem save_chat_roundtrip_witness :
    (∀ r ∈ dbOne.rows, r.timestamp.data < "2024-01-02T09:00:00".data) ∧
    (∃ r0, get_all_chats
        (save_chat dbOne "price of wheat" "about 2200" (some "market_price") none
          "2024-01-02T09:00:00") (some 1) = [r0] ∧
      r0.user_query = "price of wheat" ∧ r0.assistant_response = "about 2200" ∧
      r0.tool_used = some "market_price") :=
  ⟨by decide,
   save_chat_roundtrip dbOne "price of wheat" "about 2200" (some "market_price") none
     "2024-01-02T09:00:00" (by decide)⟩

/-- A string starting with a non-empty piece is non-empty. -/
theorem append_length_pos (s t : String) (h : 0 < s.length) : 0 < (s ++ t).length := by
  rw [String.length_append]
  omega

/-- Joining a list whose head is non-empty yields a non-empty string. -/
theorem joinSep_length_pos (sep s : String) (l : List String) (h : 0 < s.length) :
    0 < (joinSep sep (s :: l)).length := by
  cases l with
  | nil => exact h
  | cons t ts => exact append_length_pos _ _ h

/-- Claim C3: for every input and every way the upstream call can
resolve — including every exception class the adapters catch — each of
the three tool adapters returns a (non-empty, descriptive) string; the
embedding is total, mirroring that no exception escapes the adapter
boundary. -/
theorem adapters_always_return_text (q crop state loc : String)
    (u1 : SearchUpstream) (u2 : MarketUpstream) (u3 : WeatherUpstream) :
    0 < (google_search q u1).length ∧ 0 < (get_market_price crop state u2).length ∧
    0 < (get_weather loc u3).length := by
  refine ⟨?_, ?_, ?_⟩
  · cases u1 with
    | error e => exact append_length_pos _ _ (by decide)
    | ok items =>
      cases items with
      | nil =>
        show 0 < ("No relevant information found in trusted online sources." : String).length
        decide
      | cons i is =>
        show 0 < (google_search q (SearchUpstream.ok (i :: is))).length
        simp only [google_search, List.map_cons, List.isEmpty_cons, Bool.false_eq_true,
          if_false]
        exact joinSep_length_pos _ _ _ (append_length_pos _ _ (by decide))
  · cases u2 with
    | requestError =>
      show 0 < ("Could not fetch market prices due to a network issue." : String).length
      decide
    | otherError e => exact append_length_pos _ _ (by decide)
    | ok records =>
      match records with
      | none => exact append_length_pos _ _ (by decide)
      | some [] => exact append_length_pos _ _ (by decide)
      | some (r :: rs) =>
        simp only [get_market_price]
        by_cases h : (collectPriceRecords (r :: rs) 0).isEmpty
        · rw [if_pos h]; exact append_length_pos _ _ (by decide)
        · rw [if_neg h]; exact append_length_pos _ _ (by decide)
  · cases u3 with
    | httpError status e =>
      simp only [get_weather]
      by_cases h4 : status = 404
      · rw [if_pos h4]; exact append_length_pos _ _ (by decide)
      · rw [if_neg h4]
        by_cases h1 : status = 401
        · rw [if_pos h1]; decide
        · rw [if_neg h1]; exact append_length_pos _ _ (by decide)
    | timeoutError e => exact append_length_pos _ _ (by decide)
    | otherError e => exact append_length_pos _ _ (by decide)
    | ok data =>
      simp only [get_weather]
      by_cases h : data.cod = some 200
      · rw [if_neg (by simp [h])]; exact append_length_pos _ _ (by decide)
      · rw [if_pos (by simp [h])]; exact append_length_pos _ _ (by decide)

/-- Every record the price loop keeps has a truthy (non-empty) modal
price different from the literal "0". -/
theorem collectPriceRecords_kept :
    ∀ (rs : List MarketRecord) (k : Nat) (x : MarketRecord),
      x ∈ collectPriceRecords rs k →
        x.modal_price.getD "N/A" ≠ "" ∧ x.modal_price.getD "N/A" ≠ "0" := by
  intro rs
  induction rs with
  | nil => intro k x hx; simp [collectPriceRecords] at hx
  | cons r rest ih =>
    intro k x hx
    rw [collectPriceRecords] at hx
    by_cases hk : 5 ≤ k
    · rw [if_pos hk] at hx; simp at hx
    · rw [if_neg hk] at hx
      by_cases hc : r.modal_price.getD "N/A" ≠ "" ∧ r.modal_price.getD "N/A" ≠ "0"
      · rw [if_pos hc] at hx
        rcases List.mem_cons.1 hx with rfl | hx
        · exact hc
        · exact ih _ x hx
      · rw [if_neg hc] at hx
        exact ih _ x hx

/-- The price loop keeps at most `5 - k` records once `k` are already
counted. -/
theorem collectPriceRecords_length :
    ∀ (rs : List MarketRecord) (k : Nat), (collectPriceRecords rs k).length ≤ 5 - k := by
  intro rs
  induction rs with
  | nil => intro k; simp [collectPriceRecords]
  | cons r rest ih =>
    intro k
    rw [collectPriceRecords]
    by_cases hk : 5 ≤ k
    · rw [if_pos hk]; simp
    · rw [if_neg hk]
      by_cases hc : r.modal_price.getD "N/A" ≠ "" ∧ r.modal_price.getD "N/A" ≠ "0"
      · rw [if_pos hc]
        have := ih (k + 1)
        simp only [List.length_cons]
        omega
      · rw [if_neg hc]
        have := ih k
        omega

/-- Claim C4 (amended): `get_market_price` keeps only records whose
modal-price string (defaulting to "N/A") is non-empty and different from
the literal "0" — not "strictly positive" — includes at most 5 of them,
and when the upstream record list is non-empty but no record survives
the filter it returns the distinct "no valid price data" message. -/
theorem market_price_filter_amended (crop state : String) (records : List MarketRecord)
    (r : MarketRecord) (rs : List MarketRecord) :
    (collectPriceRecords records 0).length ≤ 5 ∧
    (∀ x ∈ collectPriceRecords records 0,
      x.modal_price.getD "N/A" ≠ "" ∧ x.modal_price.getD "N/A" ≠ "0") ∧
    (collectPriceRecords (r :: rs) 0 = [] →
      get_market_price crop state (MarketUpstream.ok (some (r :: rs))) =
        "No recent market price data (with valid prices) found for " ++
          (pyTitle crop ++ " in " ++ pyTitle state ++ ".")) := by
  refine ⟨collectPriceRecords_length records 0, collectPriceRecords_kept records 0, ?_⟩
  intro h
  simp only [get_market_price, h, List.isEmpty_nil, if_true]

/-- Counterexample to claim C4 as stated: an upstream record whose price
string "-5" denotes a non-positive number survives the filter and is
included in the output. -/
theorem market_price_includes_nonpositive :
    get_market_price "Tomato" "Himachal Pradesh" (MarketUpstream.ok (some [recNegPrice])) =
      "Recent AGMARKNET Market Prices for Tomato in Himachal Pradesh:\n" ++
        "  - District: Solan, Market: Solan Market, Price: ₹-5/Quintal\n" ∧
    recNegPrice.modal_price.getD "N/A" = "-5" ∧
    priceNumeral "-5" = some (-5) ∧ ((-5 : Int) ≤ 0) := by
  refine ⟨by decide, by decide, by decide, by decide⟩

/-- Claim C5 (amended): `get_weather` maps HTTP 404 to the
location-not-found message and HTTP 401 to the invalid-API-key message,
but a network timeout is caught by the generic handler and yields the
same generic "An error occurred while fetching weather" message as any
other exception — not a distinct network-issue message; nothing is
raised. -/
theorem weather_error_mapping (location e : String) :
    get_weather location (WeatherUpstream.httpError 404 e) =
      "Could not find weather data for the location: " ++ (location ++ ".") ∧
    get_weather location (WeatherUpstream.httpError 401 e) =
      "Invalid OpenWeatherMap API key. Please check your .env file." ∧
    get_weather location (WeatherUpstream.timeoutError e) =
      "An error occurred while fetching weather: " ++ e ∧
    get_weather location (WeatherUpstream.timeoutError e) =
      get_weather location (WeatherUpstream.otherError e) :=
  ⟨rfl, rfl, rfl, rfl⟩

/-- Counterexample to claim C5 as stated: on a timeout the message is
the generic one — identical to the message for an arbitrary other
exception and containing no mention of a network issue. -/
theorem weather_timeout_not_distinct :
    get_weather "Delhi" (WeatherUpstream.timeoutError "Read timed out.") =
      "An error occurred while fetching weather: Read timed out." ∧
    get_weather "Delhi" (WeatherUpstream.timeoutError "Read timed out.") =
      get_weather "Delhi" (WeatherUpstream.otherError "Read timed out.") ∧
    strContains "network"
      (get_weather "Delhi" (WeatherUpstream.timeoutError "Read timed out.")) = false := by
  refine ⟨by decide, rfl, by decide⟩

/-- The validator issues at most its own model call. -/
theorem validate_trace_cases (env : Env) (query : String) :
    (validate_agriculture_query env query).2 = [] ∨
    (validate_agriculture_query env query).2 = [Event.validatorModelCall] := by
  rw [validate_agriculture_query]
  by_cases hg : greetings.any (fun g =>
      pyStartsWith (pyStrip (pyLower query)) g || (pyStrip (pyLower query) == g)) = true
  · rw [if_pos hg]; exact Or.inl rfl
  · rw [if_neg hg]
    by_cases ho : env.is_online
    · rw [if_neg (by simp [ho])]; exact Or.inr rfl
    · rw [if_pos (by simp [ho])]; exact Or.inl rfl

/-- Claim C1: for every query processed with offline = true (force-offline
flag set or the connectivity probe reporting false), `get_ai_response`
issues no router call, no tool-adapter call and no answer-model call —
every event of its trace is the validator check or the offline similarity
search. -/
theorem offline_mode_only_offline_search (env : Env) (query : String) (use_offline : Bool)
    (hoff : (use_offline || !env.is_online) = true) :
    (get_ai_response env query use_offline).2.all isOfflineSafeEvent = true := by
  have hval : (validate_agriculture_query env query).2.all isOfflineSafeEvent = true := by
    rcases validate_trace_cases env query with h | h
    · rw [h]; rfl
    · rw [h]; rfl
  rw [get_ai_response]
  by_cases hv : (validate_agriculture_query env query).1.1
  · rw [if_neg (by simp [hv])]
    rw [if_pos hoff]
    by_cases hs : (env.offlineResults query 3).isEmpty
    · rw [if_neg (by simp [hs])]
      simpa [List.all_append, isOfflineSafeEvent] using hval
    · rw [if_pos (by simp [hs])]
      simpa [List.all_append, isOfflineSafeEvent] using hval
  · rw [if_pos (by simp [hv])]
    exact hval

/-- Witness for C1: the connectivity probe reports offline, the log is
empty, and the whole trace is the single offline search. -/
theorem offline_mode_only_offline_search_witness :
    ((false || !envOffline.is_online) = true) ∧
    (get_ai_response envOffline "price of wheat in Punjab" false).2.all
      isOfflineSafeEvent = true :=
  ⟨rfl, offline_mode_only_offline_search envOffline "price of wheat in Punjab" false rfl⟩

/-- Claim C2 (amended): when the router decision is `market_price` and
the crop or state KEY is absent from the parsed JSON, the orchestrator
returns the targeted clarifying message asking for both crop and state,
invokes no adapter and performs no offline search.  (A key that is
present but bound to the empty string is NOT caught: it is passed to the
adapter, see the counterexample.) -/
theorem market_missing_key_clarifies (env : Env) (query : String) (tc : ToolCall)
    (honline : env.is_online = true)
    (hvalid : (validate_agriculture_query env query).1.1 = true)
    (hroute : env.routerResult = RouterOutcome.ok tc)
    (htool : tc.tool = some "market_price")
    (hmiss : tc.crop = none ∨ tc.state = none) :
    (get_ai_response env query false).1 =
      ("You asked for a price, but I need both a crop and a state " ++
        "(e.g., \x27price of rice in Haryana\x27).", "error", none) ∧
    (get_ai_response env query false).2.all
      (fun e => !isAdapterEvent e && !isOfflineSearchEvent e) = true := by
  have htr : (get_ai_response env query false).1 =
      ("You asked for a price, but I need both a crop and a state " ++
        "(e.g., \x27price of rice in Haryana\x27).", "error", none) ∧
      (get_ai_response env query false).2 =
        (validate_agriculture_query env query).2 ++ [Event.routerModelCall] := by
    rw [get_ai_response]
    rw [if_neg (by simp [hvalid])]
    rw [if_neg (by simp [honline])]
    rw [hroute]
    simp only [htool]
    rw [if_neg (by decide : ¬ (some "market_price" = some "weather"))]
    simp only [if_true]
    rcases hmiss with hc | hs
    · rw [hc]
      cases tc.state <;> exact ⟨rfl, rfl⟩
    · rw [hs]
      cases hcv : tc.crop <;> exact ⟨rfl, rfl⟩
  refine ⟨htr.1, ?_⟩
  rw [htr.2, List.all_append]
  have hval : ((validate_agriculture_query env query).2.all
      (fun e => !isAdapterEvent e && !isOfflineSearchEvent e)) = true := by
    rcases validate_trace_cases env query with h | h
    · rw [h]; rfl
    · rw [h]; rfl
  rw [hval]
  rfl

/-- Witness for C2 (amended): an online request routed to `market_price`
with no crop key present. -/
theorem market_missing_key_clarifies_witness :
    (envMarketNoCrop.is_online = true) ∧
    ((validate_agriculture_query envMarketNoCrop "price of wheat in Punjab").1.1 = true) ∧
    (envMarketNoCrop.routerResult =
      RouterOutcome.ok { tool := some "market_price", state := some "Punjab" }) ∧
    ((get_ai_response envMarketNoCrop "price of wheat in Punjab" false).1 =
      ("You asked for a price, but I need both a crop and a state " ++
        "(e.g., \x27price of rice in Haryana\x27).", "error", none) ∧
     (get_ai_response envMarketNoCrop "price of wheat in Punjab" false).2.all
       (fun e => !isAdapterEvent e && !isOfflineSearchEvent e) = true) :=
  ⟨rfl, by decide, rfl,
   market_missing_key_clarifies envMarketNoCrop "price of wheat in Punjab"
     { tool := some "market_price", state := some "Punjab" }
     rfl (by decide) rfl rfl (Or.inl rfl)⟩

/-- Counterexample to claim C2 as stated: a `market_price` decision whose
crop key is PRESENT but bound to the empty string is not caught by the
missing-parameter check — the market-price adapter is invoked with the
empty crop and a synthesized answer is returned instead of the
clarifying message. -/
theorem market_empty_string_invokes_adapter :
    Event.marketToolCall "" "Punjab" ∈
      (get_ai_response envMarketEmptyCrop "price of wheat in Punjab" false).2 ∧
    (get_ai_response envMarketEmptyCrop "price of wheat in Punjab" false).1 =
      ("final answer", "market_price",
        some { tool := some "market_price", crop := some "", state := some "Punjab" }) := by
  refine ⟨by decide, by decide⟩

end PahariKhet
